import Mathlib

/-!
Verification of buwp-local (a local WordPress development-environment
orchestrator) against its natural-language specification.

The JavaScript sources are shallowly embedded:
* untyped JSON-like configuration values become the inductive type `JVal`
  (JS objects are association lists in insertion order, JS numbers are
  exact rationals);
* `lib/config.js` (`deepMerge`, `mergeConfig`, `validateConfig`,
  `sanitizeProjectName`);
* `lib/compose-generator.js` (`generateComposeConfig` and the per-service
  generators), with JS strings kept as Lean `String` and environment-block
  values as `EnvVal` (string / boolean / undefined, the values the
  generator actually produces);
* the macOS keychain adapter (`getCredential`'s pure value transformation:
  trim plus legacy hex decoding), with credential values as lists of
  character codes;
* the `start`/`update` command tail around `docker compose up`
  (try / catch with `process.exit` / finally), as a pure function from the
  outcome of the orchestrator invocation to the final state of the staged
  temporary credential file.

Filesystem state (`fs.existsSync`) and path resolution (`path.resolve`)
are passed to the embedded functions as explicit parameters.
-/

/-! ## JSON-like values (the untyped configuration domain of `config.js`) -/

/-- A JavaScript/JSON value as manipulated by `lib/config.js`.
Objects are association lists of fields in insertion order (JS objects
have unique keys; numbers are modelled as exact rationals). -/
inductive JVal where
  | jnull : JVal
  | jbool : Bool → JVal
  | jnum : ℚ → JVal
  | jstr : String → JVal
  | jarr : List JVal → JVal
  | jobj : List (String × JVal) → JVal
deriving Repr

/-- `isObject` from `lib/config.js`:
`item && typeof item === 'object' && !Array.isArray(item)`.
Only plain objects qualify (`null` is falsy, arrays are excluded). -/
def isObject : JVal → Bool
  | .jobj _ => true
  | _ => false

/-- Property read `o[k]` on an object's field list: first matching field
(JS objects have unique keys, so the first match is the only one).
`none` corresponds to the JS value `undefined`. -/
def objGet : List (String × JVal) → String → Option JVal
  | [], _ => none
  | (k', v) :: rest, k => if k' = k then some v else objGet rest k

/-- Property write `o[k] = v` on an object's field list: an existing key
is updated in place (its position is preserved), a new key is appended —
exactly the JS object assignment semantics. -/
def objSet : List (String × JVal) → String → JVal → List (String × JVal)
  | [], k, v => [(k, v)]
  | (k', v') :: rest, k, v =>
      if k' = k then (k, v) :: rest else (k', v') :: objSet rest k v

/-- The object spread `{...target}` of `deepMerge`:
an object spreads its fields, a string spreads to indexed one-character
strings, an array spreads to indexed elements, and every primitive
(`null`, booleans, numbers) spreads to no fields. -/
def jsSpread : JVal → List (String × JVal)
  | .jobj fields => fields
  | .jstr s =>
      (s.data.enum.map fun p => (toString p.1, JVal.jstr (String.singleton p.2)))
  | .jarr xs => xs.enum.map fun p => (toString p.1, p.2)
  | _ => []

mutual

/-- `deepMerge` from `lib/config.js`:
```
const output = { ...target };
if (isObject(target) && isObject(source)) {
  Object.keys(source).forEach(key => {
    if (isObject(source[key])) {
      if (!(key in target)) { output[key] = source[key]; }
      else { output[key] = deepMerge(target[key], source[key]); }
    } else { output[key] = source[key]; }
  });
}
return output;
```
Note that the result is always an object: when `target` or `source` is
not a plain object the function returns the spread of `target` and the
source is ignored entirely. -/
def deepMerge : JVal → JVal → JVal
  | t, s =>
    match t, s with
    | .jobj tf, .jobj sf => .jobj (deepMergeFields tf sf tf)
    | t, _ => .jobj (jsSpread t)

/-- The `forEach` loop of `deepMerge`, folding the source fields in order
over the accumulated output (initially the spread of the target). -/
def deepMergeFields (tf : List (String × JVal)) :
    List (String × JVal) → List (String × JVal) → List (String × JVal)
  | [], out => out
  | (k, sv) :: rest, out =>
      let out' :=
        if isObject sv then
          match objGet tf k with
          | none => objSet out k sv
          | some tv => objSet out k (deepMerge tv sv)
        else objSet out k sv
      deepMergeFields tf rest out'

end

/-- `mergeConfig(...configs)` from `lib/config.js`:
`configs.reduce((acc, config) => deepMerge(acc, config), {})`. -/
def mergeConfig (configs : List JVal) : JVal :=
  configs.foldl deepMerge (.jobj [])

/-! ## Template interpolation and number display -/

/-- Display of a number in a JS template string. Integral values are
rendered exactly (the only case the program produces: ports are
integers). Non-integral rationals are rendered as a fraction; JS decimal
formatting of non-integral doubles is not modelled and no theorem
depends on it. -/
def numToStr (q : ℚ) : String :=
  if q.den = 1 then toString q.num else toString q.num ++ "/" ++ toString q.den

mutual

/-- JS string conversion of a value, as performed by a template literal. -/
def jvalDisplay : JVal → String
  | .jnull => "null"
  | .jbool b => cond b "true" "false"
  | .jnum q => numToStr q
  | .jstr s => s
  | .jarr xs => jvalDisplayList xs
  | .jobj _ => "[object Object]"

/-- Array `toString`: elements joined by commas, `null` elements empty. -/
def jvalDisplayList : List JVal → String
  | [] => ""
  | x :: rest =>
      (match x with
       | .jnull => ""
       | v => jvalDisplay v)
      ++ (if rest.isEmpty then "" else ",") ++ jvalDisplayList rest

end

/-- Template interpolation of a possibly-undefined value:
JS renders `undefined` for a missing property. -/
def jsTemplate : Option JVal → String
  | none => "undefined"
  | some v => jvalDisplay v

/-! ## Typed view of a resolved configuration (the record shape that
`loadConfig` produces and the compose generator consumes) -/

/-- `config.db` (credential overrides from the `.env.local` overlay). -/
structure DbConfig where
  password : Option String
  rootPassword : Option String
deriving Repr, DecidableEq

/-- `config.shibboleth`. -/
structure ShibConfig where
  entityId : Option String
  idpEntityId : Option String
  idpLogout : Option String
  spKey : Option String
  spCert : Option String
deriving Repr, DecidableEq

/-- `config.s3`. -/
structure S3Config where
  bucket : Option String
  region : Option String
  accessKeyId : Option String
  secretAccessKey : Option String
  accessRulesTable : Option String
deriving Repr, DecidableEq

/-- `config.olap`. -/
structure OlapConfig where
  name : Option String
  accountNumber : Option String
  region : Option String
deriving Repr, DecidableEq

/-- `config.services` (optional-service toggles). -/
structure ServicesConfig where
  s3proxy : Bool
  redis : Bool
  shibboleth : Bool
deriving Repr, DecidableEq

/-- One entry of `config.mappings`: `{ local, container }`.
`none` is an absent (undefined) side. -/
structure VolumeMapping where
  localPath : Option String
  container : Option String
deriving Repr, DecidableEq

/-- A value in an environment block of the generated descriptor, and of
the `config.env` map: the generator only ever produces strings, booleans
(from JSON `true`/`false` in `env` and the CLI `--xdebug` flag) and
`undefined` (missing property reads). -/
inductive EnvVal where
  | estr : String → EnvVal
  | ebool : Bool → EnvVal
  | eundef : EnvVal
deriving Repr, DecidableEq

/-- JS truthiness on environment values: the empty string, `false` and
`undefined` are falsy. -/
def envTruthy : EnvVal → Bool
  | .estr s => decide (s ≠ "")
  | .ebool b => b
  | .eundef => false

/-- JS property read `environment[key]` (missing key reads `undefined`). -/
def envGet : List (String × EnvVal) → String → EnvVal
  | [], _ => .eundef
  | (k', v) :: rest, k => if k' = k then v else envGet rest k

/-- JS property write `environment[key] = v` (updates in place, appends
if the key is new). -/
def envSet : List (String × EnvVal) → String → EnvVal → List (String × EnvVal)
  | [], k, v => [(k, v)]
  | (k', v') :: rest, k, v =>
      if k' = k then (k, v) :: rest else (k', v') :: envSet rest k v

/-- JS `a || b` on environment values. -/
def jsOr (a b : EnvVal) : EnvVal := if envTruthy a then a else b

/-- JS `optionalString || defaultString`: an absent value and the empty
string are falsy, otherwise the string itself is taken. -/
def strOr (o : Option String) (d : String) : String :=
  match o with
  | none => d
  | some s => if s = "" then d else s

/-- An optional string placed directly into an environment block
(`SERVER_NAME: config.hostname`): `undefined` when absent. -/
def optStrEnv : Option String → EnvVal
  | none => .eundef
  | some s => .estr s

/-- JS `String(value)` on the values of the modelled domain. -/
def envString : EnvVal → String
  | .estr s => s
  | .ebool b => cond b "true" "false"
  | .eundef => "undefined"

/-- The resolved configuration record consumed by `validateConfig` and
the compose generator. `ports` is kept untyped (`validateConfig`
iterates whatever keys and values the merged JSON holds); `none`
models an absent or nulled-out section. -/
structure Config where
  projectName : Option String
  image : Option String
  hostname : Option String
  multisite : Bool
  services : ServicesConfig
  ports : Option (List (String × JVal))
  mappings : Option (List VolumeMapping)
  env : List (String × EnvVal)
  db : Option DbConfig
  shibboleth : Option ShibConfig
  s3 : Option S3Config
  olap : Option OlapConfig
deriving Repr

/-- Read `config.ports[k]`. -/
def portsGet (config : Config) (k : String) : Option JVal :=
  match config.ports with
  | none => none
  | some ps => objGet ps k

/-! ## The compose generator (`lib/compose-generator.js`) -/

/-- One service specification of the generated descriptor. Fields a
service does not declare are `none`/empty. -/
structure ServiceSpec where
  image : Option String
  restart : String
  command : List String
  dependsOn : List String
  ports : List String
  hostname : Option String
  environment : List (String × EnvVal)
  volumes : List String
  networks : List String
deriving Repr, DecidableEq

/-- The compiled topology descriptor: services, the single shared
network, and the named-volume declarations, all in insertion order. -/
structure ComposeConfig where
  services : List (String × ServiceSpec)
  networks : List String
  volumes : List String
deriving Repr, DecidableEq

/-- `generateDbService(config, dbVolumeName)`. -/
def generateDbService (config : Config) (dbVolumeName : String) : ServiceSpec :=
  let dbPassword := strOr (config.db.bind DbConfig.password) "password"
  let rootPassword := strOr (config.db.bind DbConfig.rootPassword) "rootpassword"
  { image := some "mariadb:latest"
    restart := "always"
    command := []
    dependsOn := []
    ports := [jsTemplate (portsGet config "db") ++ ":3306"]
    hostname := none
    environment :=
      [("MYSQL_DATABASE", .estr "wordpress"),
       ("MYSQL_USER", .estr "wordpress"),
       ("MYSQL_PASSWORD", .estr dbPassword),
       ("MYSQL_ROOT_PASSWORD", .estr rootPassword)]
    volumes := [dbVolumeName ++ ":/var/lib/mysql"]
    networks := ["wp-network"] }

/-- The `depends_on` list of the WordPress service:
`['db']`, then `push('s3proxy')` if enabled, then `push('redis')` if
enabled; the shibboleth toggle is never consulted here. -/
def wpDependsOn (config : Config) : List String :=
  ["db"]
  ++ (if config.services.s3proxy then ["s3proxy"] else [])
  ++ (if config.services.redis then ["redis"] else [])

/-- The object literal that initialises the WordPress `environment`. -/
def wpInitialEnvironment (config : Config) : List (String × EnvVal) :=
  [("WORDPRESS_DB_HOST", .estr "db:3306"),
   ("WORDPRESS_DB_USER", .estr "wordpress"),
   ("WORDPRESS_DB_PASSWORD", .estr (strOr (config.db.bind DbConfig.password) "password")),
   ("WORDPRESS_DB_NAME", .estr "wordpress"),
   ("WORDPRESS_DEBUG", jsOr (envGet config.env "WP_DEBUG") (.estr "0")),
   ("SERVER_NAME", optStrEnv config.hostname),
   ("HTTP_HOST", optStrEnv config.hostname),
   ("MULTISITE", .estr (cond config.multisite "true" "false")),
   ("XDEBUG", jsOr (envGet config.env "XDEBUG") (.estr "false")),
   ("WP_CLI_ALLOW_ROOT", .estr "true"),
   ("TZ", .estr "America/New_York")]

/-- The WordPress environment after the conditional per-service blocks
(shibboleth, s3proxy, redis) and before the custom-variable loop. -/
def wpPlatformEnvironment (config : Config) : List (String × EnvVal) :=
  let env := wpInitialEnvironment config
  let env :=
    if config.services.shibboleth then
      envSet (envSet (envSet (envSet (envSet env
        "SP_ENTITY_ID" (.estr (strOr (config.shibboleth.bind ShibConfig.entityId) "")))
        "IDP_ENTITY_ID" (.estr (strOr (config.shibboleth.bind ShibConfig.idpEntityId) "")))
        "SHIB_IDP_LOGOUT" (.estr (strOr (config.shibboleth.bind ShibConfig.idpLogout) "")))
        "SHIB_SP_KEY" (.estr (strOr (config.shibboleth.bind ShibConfig.spKey) "")))
        "SHIB_SP_CERT" (.estr (strOr (config.shibboleth.bind ShibConfig.spCert) ""))
    else env
  let env :=
    if config.services.s3proxy then
      envSet env "S3PROXY_HOST" (.estr "http://s3proxy:8080")
    else env
  let env :=
    if config.services.redis then
      envSet (envSet env "REDIS_HOST" (.estr "redis")) "REDIS_PORT" (.estr "6379")
    else env
  env

/-- The derived multi-line `WORDPRESS_CONFIG_EXTRA` block: multisite
directives, S3 directives, and the always-appended
`BU_INCLUDES_PATH` directive. -/
def wpConfigExtra (config : Config) : String :=
  (if config.multisite then
     "define(\x27MULTISITE\x27, true);\n" ++ "define(\x27SUBDOMAIN_INSTALL\x27, false);\n"
   else "")
  ++ (match config.s3 with
      | some s3 =>
          if config.services.s3proxy then
            "define(\x27S3_UPLOADS_BUCKET\x27, \x27" ++ strOr s3.bucket "" ++ "\x27);\n"
            ++ "define(\x27S3_UPLOADS_REGION\x27, \x27" ++ strOr s3.region "us-east-1" ++ "\x27);\n"
            ++ "define(\x27S3_UPLOADS_KEY\x27, \x27" ++ strOr s3.accessKeyId "" ++ "\x27);\n"
            ++ "define(\x27S3_UPLOADS_SECRET\x27, \x27" ++ strOr s3.secretAccessKey "" ++ "\x27);\n"
            ++ "define(\x27ACCESS_RULES_TABLE\x27, \x27" ++ strOr s3.accessRulesTable "" ++ "\x27);\n"
            ++ "define(\x27S3_UPLOADS_OBJECT_ACL\x27, null);\n"
            ++ "define(\x27S3_UPLOADS_AUTOENABLE\x27, true);\n"
            ++ "define(\x27S3_UPLOADS_DISABLE_REPLACE_UPLOAD_URL\x27, true);\n"
          else ""
      | none => "")
  ++ "define( \x27BU_INCLUDES_PATH\x27, \x27/var/www/html/bu-includes\x27 );\n"

/-- The custom-variable loop:
`Object.entries(config.env).forEach(([key, value]) => { if (!environment[key]) environment[key] = String(value); })`. -/
def applyCustomEnv (env : List (String × EnvVal)) :
    List (String × EnvVal) → List (String × EnvVal)
  | [] => env
  | (k, v) :: rest =>
      applyCustomEnv
        (if envTruthy (envGet env k) then env
         else envSet env k (.estr (envString v)))
        rest

/-- The complete WordPress `environment` block: platform variables, then
custom variables, then the (always nonempty) `WORDPRESS_CONFIG_EXTRA`. -/
def wpEnvironment (config : Config) : List (String × EnvVal) :=
  let env := applyCustomEnv (wpPlatformEnvironment config) config.env
  let extra := wpConfigExtra config
  if extra = "" then env else envSet env "WORDPRESS_CONFIG_EXTRA" (.estr extra)

/-- The WordPress `volumes` list: the build volume first, then one bind
mount per configured mapping with the local path resolved to absolute
form. `resolvePath` embeds `path.resolve` (which depends on the process
working directory); an absent mapping side would throw in JS and is
resolved from the empty string here (the generator only runs on
validated configurations). -/
def wpVolumes (resolvePath : String → String) (config : Config)
    (wpVolumeName : String) : List String :=
  [wpVolumeName ++ ":/var/www/html"]
  ++ (match config.mappings with
      | some ms =>
          ms.map fun m =>
            resolvePath (m.localPath.getD "") ++ ":" ++ (m.container.getD "undefined")
      | none => [])

/-- `generateWordPressService(config, wpVolumeName)`. -/
def generateWordPressService (resolvePath : String → String) (config : Config)
    (wpVolumeName : String) : ServiceSpec :=
  { image := config.image
    restart := "always"
    command := []
    dependsOn := wpDependsOn config
    ports := [jsTemplate (portsGet config "http") ++ ":80",
              jsTemplate (portsGet config "https") ++ ":443"]
    hostname := config.hostname
    environment := wpEnvironment config
    volumes := wpVolumes resolvePath config wpVolumeName
    networks := ["wp-network"] }

/-- `generateS3ProxyService(config)`. -/
def generateS3ProxyService (config : Config) : ServiceSpec :=
  let region := strOr (config.olap.bind OlapConfig.region)
                  (strOr (config.s3.bind S3Config.region) "us-east-1")
  let olapName := strOr (config.olap.bind OlapConfig.name) ""
  let olapAcctNbr := strOr (config.olap.bind OlapConfig.accountNumber) ""
  { image := some "public.ecr.aws/bostonuniversity-nonprod/aws-sigv4-proxy"
    restart := "always"
    command := ["-v", "--name", "s3-object-lambda", "--region", region,
                "--no-verify-ssl", "--host",
                olapName ++ "-" ++ olapAcctNbr ++ ".s3-object-lambda." ++ region
                  ++ ".amazonaws.com"]
    dependsOn := []
    ports := []
    hostname := none
    environment :=
      [("healthcheck_path", .estr "/s3proxy-healthcheck"),
       ("AWS_ACCESS_KEY_ID", .estr (strOr (config.s3.bind S3Config.accessKeyId) "")),
       ("AWS_SECRET_ACCESS_KEY", .estr (strOr (config.s3.bind S3Config.secretAccessKey) "")),
       ("REGION", .estr region)]
    volumes := []
    networks := ["wp-network"] }

/-- `generateRedisService(config)`. -/
def generateRedisService (config : Config) : ServiceSpec :=
  { image := some "redis:alpine"
    restart := "always"
    command := []
    dependsOn := []
    ports := [jsTemplate (portsGet config "redis") ++ ":6379"]
    hostname := none
    environment := []
    volumes := []
    networks := ["wp-network"] }

/-- `generateComposeConfig(config)`: volume names derived from the
project identity, then the services in insertion order
(db, wordpress, s3proxy if enabled, redis if enabled). -/
def generateComposeConfig (resolvePath : String → String) (config : Config) :
    ComposeConfig :=
  let projectName := strOr config.projectName "buwp-local"
  let dbVolumeName := projectName ++ "_db_data"
  let wpVolumeName := projectName ++ "_wp_build"
  { services :=
      [("db", generateDbService config dbVolumeName),
       ("wordpress", generateWordPressService resolvePath config wpVolumeName)]
      ++ (if config.services.s3proxy then [("s3proxy", generateS3ProxyService config)] else [])
      ++ (if config.services.redis then [("redis", generateRedisService config)] else [])
    networks := ["wp-network"]
    volumes := [dbVolumeName, wpVolumeName] }

/-- Look a service up in the descriptor by name. -/
def servicesGet (cc : ComposeConfig) (name : String) : Option ServiceSpec :=
  match cc.services.find? (fun p => p.1 = name) with
  | none => none
  | some p => some p.2

/-! ## Validation (`validateConfig` in `lib/config.js`) -/

/-- JS falsiness of an optional string field (`!config.image`):
absent or empty. -/
def strFalsy : Option String → Bool
  | none => true
  | some s => decide (s = "")

/-- The port test of `validateConfig`:
`typeof port !== 'number' || port < 1 || port > 65535`. -/
def portInvalid : JVal → Bool
  | .jnum q => decide (q < 1) || decide (q > 65535)
  | _ => true

/-- First mapping check: `!mapping.local || !mapping.container`. -/
def mappingMissingSide (m : VolumeMapping) : Bool :=
  strFalsy m.localPath || strFalsy m.container

/-- Second mapping check: `mapping.local && !fs.existsSync(mapping.local)`
(a truthy local side whose path is absent on disk). -/
def mappingLocalMissingOnDisk (fsExists : String → Bool) (m : VolumeMapping) : Bool :=
  match m.localPath with
  | some lp => decide (lp ≠ "") && !fsExists lp
  | none => false

/-- The per-mapping loop of `validateConfig` (index-carrying): both the
missing-side check and the local-path existence check can fire for the
same mapping, in source order. -/
def mappingErrors (fsExists : String → Bool) :
    List VolumeMapping → Nat → List String
  | [], _ => []
  | m :: rest, i =>
      (if mappingMissingSide m then
         ["Mapping " ++ toString i ++ " missing required fields (local, container)"]
       else [])
      ++ (if mappingLocalMissingOnDisk fsExists m then
            ["Mapping " ++ toString i ++ ": local path does not exist: "
              ++ m.localPath.getD ""]
          else [])
      ++ mappingErrors fsExists rest (i + 1)

/-- The port loop of `validateConfig` over `Object.entries(config.ports)`. -/
def portErrors : List (String × JVal) → List String
  | [] => []
  | (service, port) :: rest =>
      (if portInvalid port then
         ["Invalid port for " ++ service ++ ": " ++ jvalDisplay port]
       else [])
      ++ portErrors rest

/-- The result record of `validateConfig`: `{ valid, errors }`. -/
structure ValidationResult where
  valid : Bool
  errors : List String
deriving Repr, DecidableEq

/-- `validateConfig(config)` from `lib/config.js`: accumulates the
required-field errors, the mapping errors and the port errors in push
order; the mapping block runs only when `config.mappings` is an array,
the port block only when `config.ports` is truthy. The function is total
(it never throws). -/
def validateConfig (fsExists : String → Bool) (config : Config) :
    ValidationResult :=
  let errors :=
    (if strFalsy config.image then ["Missing required field: image"] else [])
    ++ (if strFalsy config.hostname then ["Missing required field: hostname"] else [])
    ++ (match config.mappings with
        | some ms => mappingErrors fsExists ms 0
        | none => [])
    ++ (match config.ports with
        | some ps => portErrors ps
        | none => [])
  { valid := errors.isEmpty, errors := errors }

/-- The pre-generation control flow of `startCommand`
(`lib/commands/start.js`, lines 162-238): the command exits with
status 1 when validation fails (line 171); a passing validation can
still be followed by an exit before `generateComposeFile` (line 238) —
at the missing-credential gate (exit 1 at lines 197/201 when the
required credentials remain unavailable, possibly after the interactive
setup flow) and at the /etc/hosts prompt (exit 0 at line 229, reached
only when the per-project warning was never shown and the hostname is
absent from /etc/hosts, if the user declines to continue). The
interactive and host-file outcomes are external inputs, passed here as
booleans: `credentialsOk` (required credentials available in keychain
or `.env.local`), `hostsEntryFound` (hostname present in /etc/hosts),
`warningAlreadyShown` (the `.hosts-warning-shown` marker exists), and
`userContinues` (the answer to the continue prompt). Returns whether
`generateComposeFile` is reached. -/
def startGeneratesDescriptor (fsExists : String → Bool) (config : Config)
    (credentialsOk hostsEntryFound warningAlreadyShown userContinues : Bool) : Bool :=
  if !(validateConfig fsExists config).valid then false
  else if !credentialsOk then false
  else if !warningAlreadyShown && !hostsEntryFound && !userContinues then false
  else true

/-! ## Project-identity sanitization (`sanitizeProjectName` in
`lib/config.js`)

Strings are modelled as lists of character codes. `toLowerCase` is
modelled on the ASCII range (A-Z to a-z, identity elsewhere); the full
Unicode case mapping differs outside ASCII, but every character kept by
the replacement step lies in `[a-z0-9_-]`, on which both mappings are
the identity, so the idempotence argument is unaffected. -/

/-- ASCII `toLowerCase` on one character code. -/
def jsToLowerCode (c : Nat) : Nat :=
  if 65 ≤ c ∧ c ≤ 90 then c + 32 else c

/-- Membership in the character class `[a-z0-9_-]` of the sanitizer's
replacement regex. -/
def isProjectNameChar (c : Nat) : Bool :=
  (decide (97 ≤ c) && decide (c ≤ 122))
  || (decide (48 ≤ c) && decide (c ≤ 57))
  || c == 95 || c == 45

/-- `.replace(/[^a-z0-9_-]/g, '-')`: every character outside the class
becomes a dash (code 45). -/
def replaceDisallowed (l : List Nat) : List Nat :=
  l.map fun c => if isProjectNameChar c then c else 45

/-- `.replace(/^-+|-+$/g, '')`: strip the leading and the trailing run
of dashes. -/
def stripEdgeDashes (l : List Nat) : List Nat :=
  ((l.dropWhile (· == 45)).reverse.dropWhile (· == 45)).reverse

/-- `sanitizeProjectName(name)`: lowercase, replace every character
outside `[a-z0-9_-]` with a dash, strip leading/trailing dashes. -/
def sanitizeProjectName (l : List Nat) : List Nat :=
  stripEdgeDashes (replaceDisallowed (l.map jsToLowerCode))

/-! ## The keychain vault adapter (`getCredential`)

Credential values are modelled as lists of character codes. The
modelled part of `getCredential` is its pure value transformation: the
`trim()` of the string returned by the `security` tool, followed by the
legacy hex decoding for multi-line-capable keys. -/

/-- The fixed credential-key registry (`CREDENTIAL_KEYS`). -/
def CREDENTIAL_KEYS : List String :=
  ["WORDPRESS_DB_PASSWORD", "DB_ROOT_PASSWORD",
   "SP_ENTITY_ID", "IDP_ENTITY_ID", "SHIB_IDP_LOGOUT", "SHIB_SP_KEY", "SHIB_SP_CERT",
   "S3_UPLOADS_BUCKET", "S3_UPLOADS_REGION", "S3_UPLOADS_ACCESS_KEY_ID",
   "S3_UPLOADS_SECRET_ACCESS_KEY", "S3_ACCESS_RULES_TABLE",
   "OLAP", "OLAP_ACCT_NBR", "OLAP_REGION"]

/-- The keys registered as multi-line-capable (`MULTILINE_CREDENTIALS`). -/
def MULTILINE_CREDENTIALS : List String := ["SHIB_SP_KEY", "SHIB_SP_CERT"]

/-- `isMultilineCredential(key)`. -/
def isMultilineCredential (key : String) : Bool :=
  MULTILINE_CREDENTIALS.contains key

/-- The JS `WhiteSpace` / `LineTerminator` set recognised by
`String.prototype.trim`. -/
def isJsWhitespace (c : Nat) : Bool :=
  c == 9 || c == 10 || c == 11 || c == 12 || c == 13 || c == 32
  || c == 160 || c == 0x1680
  || (decide (0x2000 ≤ c) && decide (c ≤ 0x200A))
  || c == 0x2028 || c == 0x2029 || c == 0x202F || c == 0x205F
  || c == 0x3000 || c == 0xFEFF

/-- `value.trim()`: remove leading and trailing whitespace. -/
def jsTrim (l : List Nat) : List Nat :=
  ((l.dropWhile isJsWhitespace).reverse.dropWhile isJsWhitespace).reverse

/-- One character of `[0-9a-fA-F]`. -/
def isHexDigitCode (c : Nat) : Bool :=
  (decide (48 ≤ c) && decide (c ≤ 57))
  || (decide (97 ≤ c) && decide (c ≤ 102))
  || (decide (65 ≤ c) && decide (c ≤ 70))

/-- `isHexEncoded(value)`: matches `/^[0-9a-fA-F]+$/` (nonempty, hex
digits only) and has even length. -/
def isHexEncoded (l : List Nat) : Bool :=
  !l.isEmpty && l.all isHexDigitCode && l.length % 2 == 0

/-- Numeric value of one hex digit. -/
def hexDigitVal (c : Nat) : Nat :=
  if 48 ≤ c ∧ c ≤ 57 then c - 48
  else if 97 ≤ c then c - 87
  else c - 55

/-- `Buffer.from(value, 'hex')`: consecutive digit pairs become bytes. -/
def hexPairsToBytes : List Nat → List Nat
  | a :: b :: rest => (16 * hexDigitVal a + hexDigitVal b) :: hexPairsToBytes rest
  | _ => []

/-- `buffer.toString('utf8')`: UTF-8 decoding of the byte sequence to a
sequence of code points. ASCII bytes decode to themselves (the only case
any theorem exercises); ill-formed sequences produce U+FFFD, with a
replacement granularity that approximates Node's. -/
def utf8DecodeBytes : List Nat → List Nat
  | [] => []
  | b :: rest =>
      if b < 0x80 then b :: utf8DecodeBytes rest
      else if 0xC2 ≤ b ∧ b ≤ 0xDF then
        match rest with
        | c :: rest2 =>
            if 0x80 ≤ c ∧ c ≤ 0xBF then
              ((b - 0xC0) * 64 + (c - 0x80)) :: utf8DecodeBytes rest2
            else 0xFFFD :: utf8DecodeBytes (c :: rest2)
        | [] => [0xFFFD]
      else if 0xE0 ≤ b ∧ b ≤ 0xEF then
        match rest with
        | c :: d :: rest3 =>
            if (0x80 ≤ c ∧ c ≤ 0xBF) ∧ (0x80 ≤ d ∧ d ≤ 0xBF) then
              ((b - 0xE0) * 4096 + (c - 0x80) * 64 + (d - 0x80)) :: utf8DecodeBytes rest3
            else 0xFFFD :: utf8DecodeBytes (c :: d :: rest3)
        | [c] => 0xFFFD :: utf8DecodeBytes [c]
        | [] => [0xFFFD]
      else if 0xF0 ≤ b ∧ b ≤ 0xF4 then
        match rest with
        | c :: d :: e :: rest4 =>
            if (0x80 ≤ c ∧ c ≤ 0xBF) ∧ (0x80 ≤ d ∧ d ≤ 0xBF) ∧ (0x80 ≤ e ∧ e ≤ 0xBF) then
              ((b - 0xF0) * 262144 + (c - 0x80) * 4096 + (d - 0x80) * 64 + (e - 0x80))
                :: utf8DecodeBytes rest4
            else 0xFFFD :: utf8DecodeBytes (c :: d :: e :: rest4)
        | [c, d] => 0xFFFD :: utf8DecodeBytes [c, d]
        | [c] => 0xFFFD :: utf8DecodeBytes [c]
        | [] => [0xFFFD]
      else 0xFFFD :: utf8DecodeBytes rest

/-- `Buffer.from(value, 'hex').toString('utf8')` on a value accepted by
`isHexEncoded` (the guarded conversion never throws, so the surrounding
`try`/`catch` fallback of the source is dead on this path). -/
def bufferHexToUtf8 (l : List Nat) : List Nat :=
  utf8DecodeBytes (hexPairsToBytes l)

/-- The value transformation of `getCredential(key)`: the raw string
returned by the `security` tool is trimmed, and, for a
multi-line-capable key whose trimmed value matches the strict hex
pattern, decoded from hex. -/
def getCredentialValue (key : String) (raw : List Nat) : List Nat :=
  let result := jsTrim raw
  if isMultilineCredential key && isHexEncoded result then
    bufferHexToUtf8 result
  else result

/-! ## The `start`/`update` tail around `docker compose up`

`lib/commands/start.js` (and identically `lib/commands/update.js`) runs:
```
try { execSync(docker compose ... up -d, ...); }
catch (err) { console.error(...); process.exit(1); }
finally { if (tempEnvPath) { secureDeleteTempEnvFile(tempEnvPath); } }
```
In Node.js, `process.exit` terminates the process synchronously: the
call never returns and pending `finally` blocks of the calling frames do
not execute. The model below captures exactly this control flow. -/

/-- How the modelled block ends: normal fall-through, or immediate
process termination via `process.exit(code)`. -/
inductive ProcessEnd where
  | returned : ProcessEnd
  | exited : Nat → ProcessEnd
deriving Repr, DecidableEq

/-- The `try`/`catch`/`finally` tail of `startCommand` / `updateCommand`.
`staged` says whether a temporary credential file was created
(`tempEnvPath` non-null); `composeUpSucceeds` is the outcome of the
`docker compose up` invocation. The returned pair is how the process
ends and whether the staged file still exists at that moment. -/
def composeUpTail (staged : Bool) (composeUpSucceeds : Bool) :
    ProcessEnd × Bool :=
  if composeUpSucceeds then
    -- the try body completes; the finally block runs and deletes the
    -- staged file when one exists
    (ProcessEnd.returned, false)
  else
    -- execSync throws; the catch block prints and calls process.exit(1),
    -- which terminates the process before the finally block can run: a
    -- staged file is never deleted on this path
    (ProcessEnd.exited 1, staged)

/-! ## Accessors and concrete fixtures used by the theorems -/

/-- The field list of an object value (empty for non-objects). -/
def jsonFields : JVal → List (String × JVal)
  | .jobj fields => fields
  | _ => []

/-- A filesystem on which every path exists (for runs whose mapping list
is empty this choice is irrelevant). -/
def fsAlwaysTrue : String → Bool := fun _ => true

/-- The standard port map of the built-in defaults. -/
def defaultPorts : List (String × JVal) :=
  [("http", .jnum 80), ("https", .jnum 443), ("db", .jnum 3306), ("redis", .jnum 6379)]

/-- A resolved configuration carrying credential values, as produced by
`loadConfig` when `.env.local` supplies `WORDPRESS_DB_PASSWORD` and the
Shibboleth secrets. -/
def cfgLeak : Config :=
  { projectName := some "proj"
    image := some "ghcr.io/bu-ist/bu-wp-docker-mod_shib:arm64-latest"
    hostname := some "wordpress.local"
    multisite := false
    services := { s3proxy := false, redis := false, shibboleth := true }
    ports := some defaultPorts
    mappings := some []
    env := []
    db := some { password := some "s3cret", rootPassword := some "rootpw" }
    shibboleth := some
      { entityId := some "https://sp.example.edu/shibboleth"
        idpEntityId := none
        idpLogout := none
        spKey := some "PEM-PRIVATE-KEY-MATERIAL"
        spCert := none }
    s3 := none
    olap := none }

/-- A resolved configuration with every optional service enabled. -/
def cfgAll : Config :=
  { projectName := some "proj"
    image := some "ghcr.io/bu-ist/bu-wp-docker-mod_shib:arm64-latest"
    hostname := some "wordpress.local"
    multisite := true
    services := { s3proxy := true, redis := true, shibboleth := true }
    ports := some defaultPorts
    mappings := some []
    env := []
    db := none
    shibboleth := none
    s3 := none
    olap := none }

/-- A resolved configuration whose shibboleth block supplies no values
(so the platform writes empty-string placeholders) together with a
user-supplied custom variable of the same name. -/
def cfgCustomClash : Config :=
  { projectName := some "proj"
    image := some "ghcr.io/bu-ist/bu-wp-docker-mod_shib:arm64-latest"
    hostname := some "wordpress.local"
    multisite := false
    services := { s3proxy := false, redis := false, shibboleth := true }
    ports := some defaultPorts
    mappings := some []
    env := [("SP_ENTITY_ID", .estr "custom-entity")]
    db := none
    shibboleth := none
    s3 := none
    olap := none }

/-- An otherwise-valid configuration with `ports.http = 99999`. -/
def cfgPort99999 : Config :=
  { projectName := some "proj"
    image := some "ghcr.io/bu-ist/bu-wp-docker-mod_shib:arm64-latest"
    hostname := some "wordpress.local"
    multisite := true
    services := { s3proxy := true, redis := true, shibboleth := true }
    ports := some [("http", .jnum 99999), ("https", .jnum 443),
                   ("db", .jnum 3306), ("redis", .jnum 6379)]
    mappings := some []
    env := []
    db := none
    shibboleth := none
    s3 := none
    olap := none }

/-- The non-integral number 3/2 = 1.5, built as a literal so that all
its projections reduce. -/
def ratThreeHalves : ℚ := ⟨3, 2, by norm_num, by norm_num⟩

/-- An otherwise-valid configuration with the non-integral port
`ports.http = 1.5`. -/
def cfgPortFractional : Config :=
  { projectName := some "proj"
    image := some "ghcr.io/bu-ist/bu-wp-docker-mod_shib:arm64-latest"
    hostname := some "wordpress.local"
    multisite := true
    services := { s3proxy := true, redis := true, shibboleth := true }
    ports := some [("http", .jnum ratThreeHalves), ("https", .jnum 443),
                   ("db", .jnum 3306), ("redis", .jnum 6379)]
    mappings := some []
    env := []
    db := none
    shibboleth := none
    s3 := none
    olap := none }

/-- A minimal valid configuration used to witness the first-writer-wins
rule on a truthy platform variable. -/
def cfgPlain : Config :=
  { projectName := some "proj"
    image := some "ghcr.io/bu-ist/bu-wp-docker-mod_shib:arm64-latest"
    hostname := some "myhost.local"
    multisite := false
    services := { s3proxy := false, redis := false, shibboleth := false }
    ports := some defaultPorts
    mappings := some []
    env := [("SERVER_NAME", .estr "attacker.example")]
    db := none
    shibboleth := none
    s3 := none
    olap := none }

/-! ## Helper lemmas on environment maps -/

theorem envGet_envSet_self (l : List (String × EnvVal)) (k : String) (v : EnvVal) :
    envGet (envSet l k v) k = v := by
  induction l with
  | nil => simp [envSet, envGet]
  | cons h t ih =>
      rcases h with ⟨k', v'⟩
      by_cases hk : k' = k
      · simp [envSet, envGet, hk]
      · simp [envSet, envGet, hk, ih]

theorem envGet_envSet_ne {k' k : String} (h : k' ≠ k)
    (l : List (String × EnvVal)) (v : EnvVal) :
    envGet (envSet l k' v) k = envGet l k := by
  induction l with
  | nil => simp [envSet, envGet, h]
  | cons hd t ih =>
      rcases hd with ⟨k'', v''⟩
      by_cases hk : k'' = k'
      · simp [envSet, envGet, hk, h]
      · simp only [envSet, if_neg hk]
        by_cases hk2 : k'' = k
        · simp [envGet, hk2]
        · simp [envGet, hk2, ih]

/-- A custom variable never displaces a key whose current value is
truthy: the guarded loop leaves such a key untouched. -/
theorem applyCustomEnv_truthy (customs : List (String × EnvVal))
    (env : List (String × EnvVal)) (k : String)
    (h : envTruthy (envGet env k) = true) :
    envGet (applyCustomEnv env customs) k = envGet env k := by
  induction customs generalizing env with
  | nil => rfl
  | cons c rest ih =>
      rcases c with ⟨k', v⟩
      simp only [applyCustomEnv]
      by_cases hkv : envTruthy (envGet env k') = true
      · simp only [hkv, if_true]
        exact ih env h
      · simp only [hkv, if_false, Bool.false_eq_true]
        by_cases hk : k' = k
        · subst hk; exact absurd h hkv
        · have hset : envGet (envSet env k' (.estr (envString v))) k = envGet env k :=
            envGet_envSet_ne hk env _
          rw [ih _ (by rw [hset]; exact h), hset]

/-- The platform stage of the WordPress environment never binds
`WORDPRESS_CONFIG_EXTRA` (that key is only written after the
custom-variable loop). -/
theorem wpPlatformEnvironment_no_config_extra (config : Config) :
    envGet (wpPlatformEnvironment config) "WORDPRESS_CONFIG_EXTRA" = EnvVal.eundef := by
  obtain ⟨pn, im, hn, ms, ⟨s3p, rd, sh⟩, pts, mp, ev, db, shc, s3c, ol⟩ := config
  cases s3p <;> cases rd <;> cases sh <;> rfl

/-! ## Claim theorems -/

/-- C1 (code bug evaluation): on a resolved configuration whose
credential values came from the `.env.local` overlay, the compiled
descriptor of `generateComposeConfig` carries the database password and
the Shibboleth private key as literal strings in the `db` and
`wordpress` environment blocks — not variable-reference placeholders. -/
theorem c1_descriptor_contains_literal_secret :
    ((servicesGet (generateComposeConfig id cfgLeak) "db").map
        (fun svc => envGet svc.environment "MYSQL_PASSWORD"))
      = some (.estr "s3cret")
    ∧ ((servicesGet (generateComposeConfig id cfgLeak) "wordpress").map
        (fun svc => envGet svc.environment "WORDPRESS_DB_PASSWORD"))
      = some (.estr "s3cret")
    ∧ ((servicesGet (generateComposeConfig id cfgLeak) "wordpress").map
        (fun svc => envGet svc.environment "SHIB_SP_KEY"))
      = some (.estr "PEM-PRIVATE-KEY-MATERIAL") := by
  refine ⟨by decide, by decide, by decide⟩

/-- C2 (counterexample): the second named volume of the compiled
descriptor is `proj_wp_build`, not the `proj_build` the claim
prescribes. -/
theorem c2_counterexample :
    (generateComposeConfig id cfgAll).volumes = ["proj_db_data", "proj_wp_build"]
    ∧ ("proj_wp_build" : String) ≠ "proj_build" := by
  exact ⟨by decide, by decide⟩

/-- C2 (amended): for every configuration the two named volumes are
exactly the project identity followed by the fixed suffixes `_db_data`
and `_wp_build` — each name prefixes the identity exactly once. -/
theorem c2_volume_names (resolvePath : String → String) (config : Config) :
    (generateComposeConfig resolvePath config).volumes
      = [strOr config.projectName "buwp-local" ++ "_db_data",
         strOr config.projectName "buwp-local" ++ "_wp_build"] := rfl

/-- C3 (code bug evaluation): in the `start`/`update` tail, a staged
credential file is deleted on the successful path, but on the path where
`docker compose up` fails the catch handler's `process.exit(1)`
terminates the process before the finally block, leaving the staged
file on disk. -/
theorem c3_staged_file_survives_failed_orchestrator :
    composeUpTail true false = (ProcessEnd.exited 1, true)
    ∧ composeUpTail true true = (ProcessEnd.returned, false) :=
  ⟨rfl, rfl⟩

/-- C4 (counterexample): with every optional service enabled, the
primary service's depends-on list is `[db, s3proxy, redis]` — proxy
before cache, contradicting the claimed canonical order, and the enabled
federated-auth (shibboleth) service never appears at all. -/
theorem c4_counterexample :
    (servicesGet (generateComposeConfig id cfgAll) "wordpress").map ServiceSpec.dependsOn
      = some ["db", "s3proxy", "redis"]
    ∧ cfgAll.services.shibboleth = true
    ∧ (["db", "s3proxy", "redis"] : List String) ≠ ["db", "redis", "s3proxy"]
    ∧ "shibboleth" ∉ (["db", "s3proxy", "redis"] : List String) := by
  refine ⟨by decide, by decide, by decide, by decide⟩

/-- C4 (amended): the depends-on list of the primary service always
starts with the database service, followed by the proxy (s3proxy) when
enabled and then the cache (redis) when enabled; a disabled service
never appears, and the federated-auth (shibboleth) service never appears
even when enabled. -/
theorem c4_depends_on_order (resolvePath : String → String) (config : Config) :
    (servicesGet (generateComposeConfig resolvePath config) "wordpress").map
        ServiceSpec.dependsOn
      = some (wpDependsOn config)
    ∧ wpDependsOn config
      = ["db"] ++ (if config.services.s3proxy then ["s3proxy"] else [])
        ++ (if config.services.redis then ["redis"] else [])
    ∧ "shibboleth" ∉ wpDependsOn config := by
  refine ⟨rfl, rfl, ?_⟩
  unfold wpDependsOn
  cases hs : config.services.s3proxy <;> cases hr : config.services.redis <;> simp

/-- C5 (counterexample): with the shibboleth service enabled but no
configured values, the platform writes `SP_ENTITY_ID` as the empty
string; a user-supplied custom variable of the same name then overrides
that already-present platform key, because the guard
`if (!environment[key])` treats the empty string as absent. -/
theorem c5_counterexample :
    envGet (wpPlatformEnvironment cfgCustomClash) "SP_ENTITY_ID" = EnvVal.estr ""
    ∧ (servicesGet (generateComposeConfig id cfgCustomClash) "wordpress").map
        (fun svc => envGet svc.environment "SP_ENTITY_ID")
      = some (.estr "custom-entity")
    ∧ EnvVal.estr "custom-entity" ≠ EnvVal.estr "" := by
  refine ⟨by decide, by decide, by decide⟩

/-- C5 (amended): a user-supplied custom variable never overrides a
platform-reserved key whose platform value is truthy (a nonempty
string, or boolean `true`); a platform key holding the empty string is
treated as absent by the guard and can be overridden. -/
theorem c5_platform_value_wins (resolvePath : String → String) (config : Config)
    (wpVolumeName : String) (k : String)
    (h : envTruthy (envGet (wpPlatformEnvironment config) k) = true) :
    envGet ((generateWordPressService resolvePath config wpVolumeName).environment) k
      = envGet (wpPlatformEnvironment config) k := by
  have hgen :
      (generateWordPressService resolvePath config wpVolumeName).environment
        = wpEnvironment config := rfl
  rw [hgen]
  unfold wpEnvironment
  have h1 : envGet (applyCustomEnv (wpPlatformEnvironment config) config.env) k
      = envGet (wpPlatformEnvironment config) k :=
    applyCustomEnv_truthy _ _ _ h
  by_cases hex : wpConfigExtra config = ""
  · simp only [hex, if_true]
    exact h1
  · simp only [hex, if_false]
    by_cases hk : ("WORDPRESS_CONFIG_EXTRA" : String) = k
    · exfalso
      rw [← hk, wpPlatformEnvironment_no_config_extra] at h
      exact absurd h (by decide)
    · rw [envGet_envSet_ne hk, h1]

/-- C5 (witness): the truthy platform value `SERVER_NAME` survives a
clashing custom variable. -/
theorem c5_witness :
    envTruthy (envGet (wpPlatformEnvironment cfgPlain) "SERVER_NAME") = true
    ∧ envGet ((generateWordPressService id cfgPlain "v").environment) "SERVER_NAME"
      = envGet (wpPlatformEnvironment cfgPlain) "SERVER_NAME" :=
  ⟨by decide, c5_platform_value_wins id cfgPlain "v" "SERVER_NAME" (by decide)⟩

/-! ## Helper lemmas on object field lists (for the merge claims) -/

theorem objGet_objSet_self (l : List (String × JVal)) (k : String) (v : JVal) :
    objGet (objSet l k v) k = some v := by
  induction l with
  | nil => simp [objSet, objGet]
  | cons h t ih =>
      rcases h with ⟨k', v'⟩
      by_cases hk : k' = k
      · simp [objSet, objGet, hk]
      · simp [objSet, objGet, hk, ih]

theorem objGet_objSet_ne {k' k : String} (h : k' ≠ k)
    (l : List (String × JVal)) (v : JVal) :
    objGet (objSet l k' v) k = objGet l k := by
  induction l with
  | nil => simp [objSet, objGet, h]
  | cons hd t ih =>
      rcases hd with ⟨k'', v''⟩
      by_cases hk : k'' = k'
      · simp [objSet, objGet, hk, h]
      · simp only [objSet, if_neg hk]
        by_cases hk2 : k'' = k
        · simp [objGet, hk2]
        · simp [objGet, hk2, ih]

/-- Keys never touched by the source fields pass through the merge
loop unchanged. -/
theorem deepMergeFields_no_key (tf sf out : List (String × JVal)) (k : String)
    (h : ∀ e ∈ sf, e.1 ≠ k) :
    objGet (deepMergeFields tf sf out) k = objGet out k := by
  induction sf generalizing out with
  | nil => rfl
  | cons e rest ih =>
      rcases e with ⟨k1, sv⟩
      have hk1 : k1 ≠ k := h (k1, sv) (List.mem_cons_self _ _)
      have hrest : ∀ e ∈ rest, e.1 ≠ k := fun e he => h e (List.mem_cons_of_mem _ he)
      show objGet (deepMergeFields tf rest
        (if isObject sv then
          match objGet tf k1 with
          | none => objSet out k1 sv
          | some tv => objSet out k1 (deepMerge tv sv)
         else objSet out k1 sv)) k = objGet out k
      rw [ih _ hrest]
      by_cases hsv : isObject sv = true
      · simp only [hsv, if_true]
        cases htk : objGet tf k1 with
        | none => exact objGet_objSet_ne hk1 _ _
        | some tv => exact objGet_objSet_ne hk1 _ _
      · simp only [hsv, Bool.false_eq_true, if_false]
        exact objGet_objSet_ne hk1 _ _

/-- Per-key behaviour of the merge loop, for a source object with
distinct keys (as every JS object has): a key absent from the source is
read from the accumulated output; a key present in the source takes the
source value, recursively merged when both sides hold objects. -/
theorem deepMergeFields_get (sf tf out : List (String × JVal)) (k : String)
    (hnd : (sf.map Prod.fst).Nodup) :
    objGet (deepMergeFields tf sf out) k =
      match objGet sf k with
      | none => objGet out k
      | some sv =>
          some (if isObject sv then
                  match objGet tf k with
                  | none => sv
                  | some tv => deepMerge tv sv
                else sv) := by
  induction sf generalizing out with
  | nil => rfl
  | cons e rest ih =>
      rcases e with ⟨k1, sv1⟩
      rw [List.map_cons] at hnd
      have hnd2 := List.nodup_cons.mp hnd
      have hk1notin : k1 ∉ rest.map Prod.fst := hnd2.1
      have hnd' : (rest.map Prod.fst).Nodup := hnd2.2
      show objGet (deepMergeFields tf rest
        (if isObject sv1 then
          match objGet tf k1 with
          | none => objSet out k1 sv1
          | some tv => objSet out k1 (deepMerge tv sv1)
         else objSet out k1 sv1)) k =
        match objGet ((k1, sv1) :: rest) k with
        | none => objGet out k
        | some sv =>
            some (if isObject sv then
                    match objGet tf k with
                    | none => sv
                    | some tv => deepMerge tv sv
                  else sv)
      by_cases hk : k1 = k
      · subst hk
        have hnotin : ∀ e ∈ rest, e.1 ≠ k1 := by
          intro e he heq
          exact hk1notin (heq ▸ List.mem_map_of_mem Prod.fst he)
        rw [deepMergeFields_no_key _ _ _ _ hnotin]
        simp only [objGet, if_pos rfl]
        by_cases hsv : isObject sv1 = true
        · cases htk : objGet tf k1 with
          | none => simp [hsv, htk, objGet_objSet_self]
          | some tv => simp [hsv, htk, objGet_objSet_self]
        · simp [hsv, objGet_objSet_self]
      · rw [ih _ hnd']
        simp only [objGet, if_neg hk]
        cases hrest : objGet rest k with
        | some sv => simp
        | none =>
            simp only []
            by_cases hsv : isObject sv1 = true
            · cases htk : objGet tf k1 with
              | none => simp only [hsv, htk, if_true]; exact objGet_objSet_ne hk _ _
              | some tv => simp only [hsv, htk, if_true]; exact objGet_objSet_ne hk _ _
            · simp only [hsv, Bool.false_eq_true, if_false]
              exact objGet_objSet_ne hk _ _

/-- C6 (counterexample): merging an object override onto a non-object
base value does not take the override wholesale: merging
`{a: 5}` with `{a: {x: 1}}` yields `{a: {}}` (the spread of the
primitive base), not the claimed `{a: {x: 1}}`. -/
theorem c6_counterexample :
    deepMerge (.jobj [("a", .jnum 5)]) (.jobj [("a", .jobj [("x", .jnum 1)])])
      = .jobj [("a", .jobj [])]
    ∧ deepMerge (.jobj [("a", .jnum 5)]) (.jobj [("a", .jobj [("x", .jnum 1)])])
      ≠ .jobj [("a", .jobj [("x", .jnum 1)])] := by
  constructor
  · rfl
  · intro h
    rw [show deepMerge (.jobj [("a", .jnum 5)]) (.jobj [("a", .jobj [("x", .jnum 1)])])
          = JVal.jobj [("a", .jobj [])] from rfl] at h
    simp at h

/-- C6 (amended): per-key behaviour of the layered merge. For objects
with distinct keys: a key only in the base keeps the base value; an
override value that is an object is taken wholesale when the base lacks
the key and merged recursively when the base has one; a non-object
override replaces the base value wholesale (arrays included). But an
object override onto a non-object base does not replace it — the merge
returns the shallow spread of the base, discarding the override
(second conjunct). Layer precedence is the fold
`defaults, then file config, then runtime overlay` (third conjunct). -/
theorem c6_deep_merge_spec (tf sf : List (String × JVal)) (k : String)
    (hnd : (sf.map Prod.fst).Nodup) :
    (objGet (jsonFields (deepMerge (.jobj tf) (.jobj sf))) k
      = match objGet sf k with
        | none => objGet tf k
        | some sv =>
            some (if isObject sv then
                    match objGet tf k with
                    | none => sv
                    | some tv => deepMerge tv sv
                  else sv))
    ∧ (∀ t s : JVal, isObject t = false → deepMerge t s = .jobj (jsSpread t))
    ∧ (∀ d u e : JVal, mergeConfig [d, u, e]
        = deepMerge (deepMerge (deepMerge (.jobj []) d) u) e) := by
  refine ⟨?_, ?_, ?_⟩
  · show objGet (deepMergeFields tf sf tf) k = _
    exact deepMergeFields_get sf tf tf k hnd
  · intro t s ht
    cases t <;> first
      | rfl
      | (cases s <;> rfl)
      | (exfalso; simp [isObject] at ht)
  · intro d u e
    rfl

/-- C6 (witness): the per-key merge specification evaluated on a
concrete overlay that overrides one of two base keys. -/
theorem c6_witness :
    ((([("a", JVal.jstr "overlay")] : List (String × JVal)).map Prod.fst).Nodup)
    ∧ ((objGet (jsonFields (deepMerge
          (.jobj [("a", JVal.jstr "base"), ("b", JVal.jnum 1)])
          (.jobj [("a", JVal.jstr "overlay")]))) "a"
        = match objGet [("a", JVal.jstr "overlay")] "a" with
          | none => objGet [("a", JVal.jstr "base"), ("b", JVal.jnum 1)] "a"
          | some sv =>
              some (if isObject sv then
                      match objGet [("a", JVal.jstr "base"), ("b", JVal.jnum 1)] "a" with
                      | none => sv
                      | some tv => deepMerge tv sv
                    else sv))
      ∧ (∀ t s : JVal, isObject t = false → deepMerge t s = .jobj (jsSpread t))
      ∧ (∀ d u e : JVal, mergeConfig [d, u, e]
          = deepMerge (deepMerge (deepMerge (.jobj []) d) u) e)) :=
  ⟨by decide, c6_deep_merge_spec [("a", JVal.jstr "base"), ("b", JVal.jnum 1)]
      [("a", JVal.jstr "overlay")] "a" (by decide)⟩

/-! ## Helper lemmas for validation -/

theorem mappingErrors_eq_nil_iff (fs : String → Bool) (ms : List VolumeMapping) (i : Nat) :
    mappingErrors fs ms i = []
      ↔ ∀ m ∈ ms, mappingMissingSide m = false ∧ mappingLocalMissingOnDisk fs m = false := by
  induction ms generalizing i with
  | nil => simp [mappingErrors]
  | cons m rest ih =>
      simp only [mappingErrors, List.append_eq_nil]
      cases h1 : mappingMissingSide m <;> cases h2 : mappingLocalMissingOnDisk fs m <;>
        simp [ih, h1, h2]

theorem portErrors_eq_nil_iff (ps : List (String × JVal)) :
    portErrors ps = [] ↔ ∀ e ∈ ps, portInvalid e.2 = false := by
  induction ps with
  | nil => simp [portErrors]
  | cons e rest ih =>
      rcases e with ⟨svc, port⟩
      simp only [portErrors, List.append_eq_nil]
      cases h : portInvalid port <;> simp [ih, h]

/-- C7 (counterexample): `validateConfig` accepts the non-integral port
`ports.http = 1.5` — `typeof 1.5 === 'number'` and it lies inside the
range — so an otherwise-valid configuration with a non-integer port
yields an empty error list, and the start command (with credentials
available and the hostname present in /etc/hosts) proceeds all the way
to descriptor generation, contradicting the claimed integrality
requirement. -/
theorem c7_counterexample :
    validateConfig fsAlwaysTrue cfgPortFractional = { valid := true, errors := [] }
    ∧ startGeneratesDescriptor fsAlwaysTrue cfgPortFractional true true false true = true
    ∧ (∀ n : ℤ, ratThreeHalves ≠ (n : ℚ)) := by
  refine ⟨by decide, by decide, ?_⟩
  intro n h
  have hden : ratThreeHalves.den = ((n : ℚ)).den := by rw [h]
  rw [Rat.den_intCast] at hden
  exact absurd hden (by decide)

set_option maxRecDepth 8000

/-- C7 (amended): `validateConfig` is total (it returns a structured
record rather than throwing) and its error list is nonempty exactly when
the image is falsy, the hostname is falsy, some mapping fails one of the
two mapping checks, or some declared port is not a JS number in
[1, 65535] (non-integral numbers in range are accepted); the port test
is characterised in the second conjunct. When validation fails, the
start command never reaches descriptor generation, whatever the
credential and hosts-prompt outcomes (third conjunct; validity alone
does not guarantee generation, since later gates can still exit). The
`ports.http = 99999` scenario yields exactly the single error
referencing the http port and no descriptor is generated on any path
(last conjuncts). -/
theorem c7_validate_spec :
    (∀ (fs : String → Bool) (c : Config),
      (validateConfig fs c).errors ≠ []
        ↔ strFalsy c.image = true ∨ strFalsy c.hostname = true
          ∨ (∃ ms, c.mappings = some ms
              ∧ ∃ m ∈ ms, mappingMissingSide m = true ∨ mappingLocalMissingOnDisk fs m = true)
          ∨ (∃ ps, c.ports = some ps ∧ ∃ e ∈ ps, portInvalid e.2 = true))
    ∧ (∀ v : JVal, portInvalid v = true ↔ ¬ ∃ q : ℚ, v = .jnum q ∧ 1 ≤ q ∧ q ≤ 65535)
    ∧ (∀ (fs : String → Bool) (c : Config)
        (credentialsOk hostsEntryFound warningAlreadyShown userContinues : Bool),
        (validateConfig fs c).valid = false →
          startGeneratesDescriptor fs c credentialsOk hostsEntryFound
            warningAlreadyShown userContinues = false)
    ∧ validateConfig fsAlwaysTrue cfgPort99999
        = { valid := false, errors := ["Invalid port for http: 99999"] }
    ∧ (∀ credentialsOk hostsEntryFound warningAlreadyShown userContinues : Bool,
        startGeneratesDescriptor fsAlwaysTrue cfgPort99999 credentialsOk
          hostsEntryFound warningAlreadyShown userContinues = false) := by
  refine ⟨?_, ?_, ?_, by decide, by decide⟩
  · intro fs c
    simp only [validateConfig, Ne, List.append_eq_nil]
    cases h1 : strFalsy c.image <;> cases h2 : strFalsy c.hostname <;>
      cases hm : c.mappings <;> cases hp : c.ports <;>
        simp [mappingErrors_eq_nil_iff, portErrors_eq_nil_iff, hm, hp,
          not_and_or, not_forall, Bool.not_eq_false, imp_iff_not_or, or_assoc]
  · intro v
    cases v <;> simp [portInvalid]
    case jnum q =>
      rw [imp_iff_not_or, not_le]
  · intro fs c credentialsOk hostsEntryFound warningAlreadyShown userContinues h
    simp [startGeneratesDescriptor, h]

/-- C7 (witness): the validation-failure gate applied to the concrete
invalid configuration `ports.http = 99999`, with credentials available
and the hostname present — the command still generates no descriptor. -/
theorem c7_witness :
    (validateConfig fsAlwaysTrue cfgPort99999).valid = false
    ∧ startGeneratesDescriptor fsAlwaysTrue cfgPort99999 true true false true = false :=
  ⟨by decide,
    c7_validate_spec.2.2.1 fsAlwaysTrue cfgPort99999 true true false true (by decide)⟩

/-! ## Sanitization lemmas (claim C8) -/

theorem isProjectNameChar_toLower_fixed {c : Nat} (h : isProjectNameChar c = true) :
    jsToLowerCode c = c := by
  unfold isProjectNameChar at h
  unfold jsToLowerCode
  rw [if_neg]
  simp only [Bool.or_eq_true, Bool.and_eq_true, decide_eq_true_eq, beq_iff_eq] at h
  omega

theorem replaceDisallowed_mem {l : List Nat} {c : Nat} (h : c ∈ replaceDisallowed l) :
    isProjectNameChar c = true := by
  unfold replaceDisallowed at h
  obtain ⟨b, hb, hbc⟩ := List.mem_map.mp h
  by_cases hkeep : isProjectNameChar b = true
  · rw [if_pos hkeep] at hbc; exact hbc ▸ hkeep
  · rw [if_neg hkeep] at hbc; rw [← hbc]; decide

theorem map_mem_id {f : Nat → Nat} :
    ∀ l : List Nat, (∀ a ∈ l, f a = a) → l.map f = l := by
  intro l
  induction l with
  | nil => intro _; rfl
  | cons a t ih =>
      intro h
      rw [List.map_cons, h a (List.mem_cons_self _ _),
        ih fun b hb => h b (List.mem_cons_of_mem _ hb)]

theorem stripEdgeDashes_subset (l : List Nat) : stripEdgeDashes l ⊆ l := by
  intro a ha
  unfold stripEdgeDashes at ha
  rw [List.mem_reverse] at ha
  have h1 := List.dropWhile_subset (· == 45) ha
  rw [List.mem_reverse] at h1
  exact List.dropWhile_subset (· == 45) h1

theorem stripEdgeDashes_fix {l : List Nat}
    (h1 : ∀ x, l.head? = some x → (x == 45) = false)
    (h2 : ∀ x, l.getLast? = some x → (x == 45) = false) :
    stripEdgeDashes l = l := by
  unfold stripEdgeDashes
  have e1 : l.dropWhile (· == 45) = l := by
    cases l with
    | nil => rfl
    | cons x xs => exact List.dropWhile_cons_of_neg (by simp [h1 x rfl])
  rw [e1]
  have e2 : l.reverse.dropWhile (· == 45) = l.reverse := by
    cases hr : l.reverse with
    | nil => rfl
    | cons x xs =>
        have hx : l.getLast? = some x := by
          rw [← List.head?_reverse, hr]
          rfl
        exact List.dropWhile_cons_of_neg (by simp [h2 x hx])
  rw [e2, List.reverse_reverse]

theorem stripEdgeDashes_head {l : List Nat} {x : Nat}
    (h : (stripEdgeDashes l).head? = some x) : (x == 45) = false := by
  unfold stripEdgeDashes at h
  rw [List.head?_reverse] at h
  have hsuff : (l.dropWhile (· == 45)).reverse.dropWhile (· == 45)
      <:+ (l.dropWhile (· == 45)).reverse := List.dropWhile_suffix _
  obtain ⟨t, ht⟩ := hsuff
  have hw : ((l.dropWhile (· == 45)).reverse).getLast? = some x := by
    rw [← ht, List.getLast?_append, h]
    rfl
  rw [List.getLast?_reverse] at hw
  have hnot := List.head?_dropWhile_not (· == 45) l
  rw [hw] at hnot
  exact hnot

theorem stripEdgeDashes_getLast {l : List Nat} {x : Nat}
    (h : (stripEdgeDashes l).getLast? = some x) : (x == 45) = false := by
  unfold stripEdgeDashes at h
  rw [List.getLast?_reverse] at h
  have hnot := List.head?_dropWhile_not (· == 45) ((l.dropWhile (· == 45)).reverse)
  rw [h] at hnot
  exact hnot

theorem stripEdgeDashes_idem (l : List Nat) :
    stripEdgeDashes (stripEdgeDashes l) = stripEdgeDashes l :=
  stripEdgeDashes_fix (fun _ hx => stripEdgeDashes_head hx)
    (fun _ hx => stripEdgeDashes_getLast hx)

/-- C8: project-identity sanitization is idempotent. -/
theorem c8_sanitize_idempotent (l : List Nat) :
    sanitizeProjectName (sanitizeProjectName l) = sanitizeProjectName l := by
  set y := replaceDisallowed (l.map jsToLowerCode) with hy
  have hkeep : ∀ c ∈ stripEdgeDashes y, isProjectNameChar c = true := by
    intro c hc
    exact replaceDisallowed_mem (stripEdgeDashes_subset y hc)
  show stripEdgeDashes (replaceDisallowed ((stripEdgeDashes y).map jsToLowerCode))
      = stripEdgeDashes y
  have e1 : (stripEdgeDashes y).map jsToLowerCode = stripEdgeDashes y :=
    map_mem_id _ fun a ha => isProjectNameChar_toLower_fixed (hkeep a ha)
  rw [e1]
  have e2 : replaceDisallowed (stripEdgeDashes y) = stripEdgeDashes y := by
    unfold replaceDisallowed
    exact map_mem_id _ fun a ha => by rw [if_pos (hkeep a ha)]
  rw [e2]
  exact stripEdgeDashes_idem y

/-! ## Keychain adapter lemmas (claims C9, C10) -/

/-- C9 (counterexample): for the multi-line key `SHIB_SP_KEY` and the
stored value `" 2d2d"` — which does not consist solely of hex digits
(it starts with a space) — `get` does not return the stored value
undecoded: it trims first and then hex-decodes the trimmed value,
returning `"--"`. -/
theorem c9_counterexample :
    getCredentialValue "SHIB_SP_KEY" [32, 50, 100, 50, 100] = [45, 45]
    ∧ ([32, 50, 100, 50, 100].all isHexDigitCode) = false
    ∧ ([45, 45] : List Nat) ≠ [32, 50, 100, 50, 100] := by
  refine ⟨by decide, by decide, by decide⟩

/-- C9 (amended): for a multi-line-capable key, when the *trimmed*
retrieved value is nonempty, consists solely of hexadecimal digits and
has even length, `get` returns that trimmed value decoded from hex to
text; the decoding condition is tested after trimming, not on the
stored value itself. -/
theorem c9_hex_decode (key : String) (raw : List Nat)
    (h1 : isMultilineCredential key = true)
    (h2 : ∀ c ∈ jsTrim raw, isHexDigitCode c = true)
    (h3 : (jsTrim raw).length % 2 = 0)
    (h4 : jsTrim raw ≠ []) :
    getCredentialValue key raw = bufferHexToUtf8 (jsTrim raw) := by
  have hhex : isHexEncoded (jsTrim raw) = true := by
    unfold isHexEncoded
    rw [Bool.and_eq_true, Bool.and_eq_true]
    refine ⟨⟨?_, ?_⟩, ?_⟩
    · simp [List.isEmpty_iff, h4]
    · rw [List.all_eq_true]
      exact h2
    · rw [Nat.beq_eq_true_eq]
      exact h3
  unfold getCredentialValue
  simp [h1, hhex]

/-- C9 (witness): the hex value `"2d2d"` stored under `SHIB_SP_CERT`
decodes on retrieval. -/
theorem c9_witness :
    isMultilineCredential "SHIB_SP_CERT" = true
    ∧ (∀ c ∈ jsTrim [50, 100, 50, 100], isHexDigitCode c = true)
    ∧ (jsTrim [50, 100, 50, 100]).length % 2 = 0
    ∧ jsTrim [50, 100, 50, 100] ≠ ([] : List Nat)
    ∧ getCredentialValue "SHIB_SP_CERT" [50, 100, 50, 100]
        = bufferHexToUtf8 (jsTrim [50, 100, 50, 100]) :=
  ⟨by decide, by decide, by decide, by decide,
    c9_hex_decode "SHIB_SP_CERT" [50, 100, 50, 100]
      (by decide) (by decide) (by decide) (by decide)⟩

/-- C10 (counterexample): for the multi-line key `SHIB_SP_KEY` and the
value `"2d2d\n"` (hex digits plus a trailing newline), `get` does not
return the value without its trailing newline — trimming exposes a hex
string, the legacy decoding fires, and `get` returns `"--"`. -/
theorem c10_counterexample :
    getCredentialValue "SHIB_SP_KEY" [50, 100, 50, 100, 10] = [45, 45]
    ∧ jsTrim [50, 100, 50, 100, 10] = [50, 100, 50, 100]
    ∧ ([45, 45] : List Nat) ≠ [50, 100, 50, 100] := by
  refine ⟨by decide, by decide, by decide⟩

/-- Trimming a value that ends in a newline strictly shortens it. -/
theorem jsTrim_shorter_of_trailing_newline {raw : List Nat}
    (h : raw.getLast? = some 10) : (jsTrim raw).length < raw.length := by
  have hne : raw ≠ [] := by
    intro he; rw [he] at h; exact Option.noConfusion h
  unfold jsTrim
  rcases hu : raw.dropWhile isJsWhitespace with _ | ⟨z, zs⟩
  · simpa using List.length_pos.mpr hne
  · have hune : raw.dropWhile isJsWhitespace ≠ [] := by
      rw [hu]; exact List.cons_ne_nil _ _
    obtain ⟨t, ht⟩ : raw.dropWhile isJsWhitespace <:+ raw := List.dropWhile_suffix _
    have hulast : (raw.dropWhile isJsWhitespace).getLast? = some 10 := by
      rcases hl : (raw.dropWhile isJsWhitespace).getLast? with _ | z2
      · exact absurd (List.getLast?_eq_none_iff.mp hl) hune
      · rw [← ht, List.getLast?_append, hl, Option.or_some] at h
        exact h
    rw [hu] at hulast
    have hrev : ((z :: zs).reverse).head? = some 10 := by
      rw [List.head?_reverse]; exact hulast
    rcases hur : (z :: zs).reverse with _ | ⟨w, ws⟩
    · exact absurd hur (by simp)
    · rw [hur] at hrev
      have hw10 : w = 10 := Option.some.inj hrev
      rw [hw10, List.dropWhile_cons_of_pos (by decide)]
      have hlen1 : (ws.dropWhile isJsWhitespace).length ≤ ws.length :=
        (List.dropWhile_sublist _).length_le
      have hlen2 : (z :: zs).length = (w :: ws).length := by
        rw [← hur, List.length_reverse]
      have hlen3 : (z :: zs).length ≤ raw.length := by
        rw [← hu]; exact (List.dropWhile_sublist _).length_le
      simp only [List.length_reverse, List.length_cons] at hlen2 hlen3 ⊢
      omega

/-- C10 (amended): whenever the legacy hex decoding does not fire (the
key is not multi-line-capable, or the trimmed value is not a nonempty
even-length hex string), `get` after `set` returns exactly the trimmed
value; in particular for a value with a trailing newline the round trip
is not the identity. When the decoding does fire the result is the hex
decoding of the trimmed value instead, which is also never the original
value with its newline intact. -/
theorem c10_get_returns_trimmed (key : String) (raw : List Nat)
    (h : (isMultilineCredential key && isHexEncoded (jsTrim raw)) = false) :
    getCredentialValue key raw = jsTrim raw
    ∧ (raw.getLast? = some 10 → getCredentialValue key raw ≠ raw) := by
  have he : getCredentialValue key raw = jsTrim raw := by
    unfold getCredentialValue
    simp [h]
  refine ⟨he, ?_⟩
  intro h10 heq
  have hlt := jsTrim_shorter_of_trailing_newline h10
  have hj : jsTrim raw = raw := he.symm.trans heq
  rw [hj] at hlt
  exact lt_irrefl _ hlt

/-- C10 (witness): a database password stored with a trailing newline
comes back trimmed, not identical. -/
theorem c10_witness :
    (isMultilineCredential "WORDPRESS_DB_PASSWORD"
        && isHexEncoded (jsTrim [97, 98, 99, 10])) = false
    ∧ (getCredentialValue "WORDPRESS_DB_PASSWORD" [97, 98, 99, 10]
          = jsTrim [97, 98, 99, 10]
      ∧ (([97, 98, 99, 10] : List Nat).getLast? = some 10 →
          getCredentialValue "WORDPRESS_DB_PASSWORD" [97, 98, 99, 10]
            ≠ [97, 98, 99, 10])) :=
  ⟨by decide, c10_get_returns_trimmed "WORDPRESS_DB_PASSWORD" [97, 98, 99, 10] (by decide)⟩
